import Mathlib

/-!
Verification of the client-side fraud-scoring fallback and CSV analytics of
the Predictive-Transaction-Intelligence dashboard
(`src/dashboard/transaction-test.js`).

Numbers are modelled as rationals (`ℚ`), JS strings as `String`, and each
call to `Math.random()` as an explicitly passed rational draw, so that every
function is a pure, computable Lean function of its inputs and of the
realization of the random source.  Host primitives that the repository does
not define (`Math.sqrt`, `parseFloat`, `Date.parse`-based date recognition,
`JSON.stringify`) are taken as explicit function parameters.  A JS arithmetic
result that can be `NaN` (division by zero on an empty dataset, indexing past
the end of an array) is modelled as `Option` with `none` standing for the
non-finite result.
-/

namespace TransactionTest

/-- The transaction form data handed to the mock scorer
(`generateEnhancedMockPrediction(formData)`): amount and account age as
numbers, the KYC flag as a boolean and the channel as a string
(compared against the literal `"mobile"` in the source). -/
structure FormData where
  customer_id : String
  transaction_amount : ℚ
  account_age_days : ℤ
  kyc_verified : Bool
  channel : String
deriving DecidableEq, Repr

/-- One realization of the random source: the `Math.random()` draws the
scorer can consume, in source order — the baseline draw (line 678), the four
per-rule fraud-flip draws (lines 683, 688, 693, 698) and the explanation
selection draw (line 732).  A draw field is only consumed when the
corresponding rule fires, so a fixed record is a faithful model of "a fixed
realization of the random source". -/
structure RandomSource where
  baseline : ℚ
  amountDraw : ℚ
  ageDraw : ℚ
  kycDraw : ℚ
  mobileDraw : ℚ
  explDraw : ℚ
deriving DecidableEq, Repr

/-- The duck-typed result object returned by `generateEnhancedMockPrediction`
(lines 706–714). -/
structure MockPrediction where
  is_fraud : Bool
  prediction : ℕ
  fraud : Bool
  risk_score : ℚ
  confidence : ℚ
  rules_triggered : List String
  llm_explanation : String
deriving DecidableEq, Repr

/-- `generateLLMExplanation(formData, isFraud, riskScore)` (lines 717–735):
selects one of three fixed template strings for the fraud / legitimate case
by `Math.floor(Math.random() * length)`.  JS number-to-string interpolation
inside the templates is modelled by Lean `toString`; the `riskScore`
parameter is unused in the source body as well. -/
def generateLLMExplanation (formData : FormData) (isFraud : Bool)
    (riskScore : ℚ) (r : ℚ) : String :=
  let _ := riskScore
  let fraudPool : List String :=
    [ "This transaction exhibits suspicious patterns including " ++
        (if formData.transaction_amount > 10000 then "unusually high amount"
         else "suspicious timing") ++ " and " ++
        (if formData.account_age_days < 30 then "new account activity"
         else "unverified channel usage") ++ "."
    , "Multiple risk factors detected: " ++
        (if formData.kyc_verified then "KYC verified but " else "") ++
        "transaction from " ++ formData.channel ++ " channel with " ++
        toString formData.account_age_days ++
        "-day old account raises security concerns."
    , "Fraud pattern matched: " ++ toString formData.transaction_amount ++
        " amount transaction from " ++
        (if formData.account_age_days < 7 then "very new"
         else "relatively new") ++ " account via " ++ formData.channel ++ "." ]
  let legitimatePool : List String :=
    [ "Transaction appears legitimate with normal patterns: " ++
        (if formData.kyc_verified then "KYC verified"
         else "standard verification") ++ " and consistent account behavior."
    , "No significant risk factors detected. Transaction amount and channel usage align with typical customer behavior for " ++
        toString formData.account_age_days ++ "-day old account."
    , "Standard transaction pattern: Amount within expected range and verified through " ++
        formData.channel ++ " channel." ]
  let pool := if isFraud then fraudPool else legitimatePool
  pool.getD (Int.toNat ⌊r * 3⌋) ""

/-- `generateEnhancedMockPrediction(formData)` (lines 675–715), the mock
fraud scorer.  The baseline risk is `Math.random() * 0.3 + 0.7`; each of the
four rules, when its condition holds, pushes its rule string, adds its risk
increment, and (re)computes the fraud flag from its own random draw — note
that the first rule *assigns* `isFraud` while the later three OR into it,
exactly as in the source.  The final risk score is clamped by
`Math.min(0.95, Math.max(0.05, riskScore))`. -/
def generateEnhancedMockPrediction (formData : FormData)
    (rnd : RandomSource) : MockPrediction :=
  let isFraud0 : Bool := false
  let riskScore0 : ℚ := rnd.baseline * (3/10) + 7/10
  let rules0 : List String := []
  -- if (formData.transaction_amount > 10000)
  let c1 : Prop := formData.transaction_amount > 10000
  let isFraud1 := if c1 then decide (rnd.amountDraw > 3/10) else isFraud0
  let rules1 := if c1 then rules0 ++ ["Amount exceeds threshold"] else rules0
  let riskScore1 := if c1 then riskScore0 + 2/10 else riskScore0
  -- if (formData.account_age_days < 30)
  let c2 : Prop := formData.account_age_days < 30
  let isFraud2 := if c2 then isFraud1 || decide (rnd.ageDraw > 6/10) else isFraud1
  let rules2 := if c2 then rules1 ++ ["New account with limited history"] else rules1
  let riskScore2 := if c2 then riskScore1 + 15/100 else riskScore1
  -- if (!formData.kyc_verified)
  let c3 : Prop := formData.kyc_verified = false
  let isFraud3 := if c3 then isFraud2 || decide (rnd.kycDraw > 5/10) else isFraud2
  let rules3 := if c3 then rules2 ++ ["KYC verification pending"] else rules2
  let riskScore3 := if c3 then riskScore2 + 1/10 else riskScore2
  -- if (formData.channel === "mobile" && formData.transaction_amount > 5000)
  let c4 : Prop := formData.channel = "mobile" ∧ formData.transaction_amount > 5000
  let isFraud4 := if c4 then isFraud3 || decide (rnd.mobileDraw > 4/10) else isFraud3
  let rules4 := if c4 then rules3 ++ ["High mobile transaction"] else rules3
  let riskScore4 := if c4 then riskScore3 + 1/10 else riskScore3
  -- riskScore = Math.min(0.95, Math.max(0.05, riskScore))
  let riskScoreFinal := min (95/100 : ℚ) (max (5/100) riskScore4)
  { is_fraud := isFraud4
    prediction := if isFraud4 then 1 else 0
    fraud := isFraud4
    risk_score := riskScoreFinal
    confidence := riskScoreFinal
    rules_triggered := rules4
    llm_explanation := generateLLMExplanation formData isFraud4 riskScoreFinal rnd.explDraw }

/-- The JS clamp `Math.min(0.95, Math.max(0.05, x))` lands in
`[0.05, 0.95]` for every argument. -/
theorem clamp_mem (x : ℚ) :
    5/100 ≤ min (95/100 : ℚ) (max (5/100) x) ∧
      min (95/100 : ℚ) (max (5/100) x) ≤ 95/100 :=
  ⟨le_min (by norm_num) (le_max_left _ _), min_le_left _ _⟩

/-- The JS clamp `Math.min(0.95, Math.max(0.05, x))` is monotone. -/
theorem clamp_mono {x y : ℚ} (h : x ≤ y) :
    min (95/100 : ℚ) (max (5/100) x) ≤ min (95/100 : ℚ) (max (5/100) y) :=
  min_le_min le_rfl (max_le_max le_rfl h)

/-! ## CSV analytics reporter -/

/-- A parsed CSV row as produced by `parseCSV` (lines 1441–1456): a total
mapping from header name to cell string (`parseCSV` pads a missing trailing
field with `""`, so the mapping is total on the headers). -/
def Row : Type := String → String

/-- A parsed dataset: the `{ headers, data }` object produced by `parseCSV`. -/
structure Dataset where
  headers : List String
  data : List Row

/-- JS division, where dividing by zero produces a non-finite number
(`0/0 = NaN`); the non-finite outcome is modelled as `none`. -/
def jsDiv (a b : ℚ) : Option ℚ := if b = 0 then none else some (a / b)

/-- A whitespace character as removed by JS `String.prototype.trim`. -/
def isWsChar (c : Char) : Bool :=
  c = ' ' || c = '\t' || c = '\n' || c = '\r'

/-- JS `String.prototype.trim`, modelled over the character list so that it
evaluates by computation. -/
def jsTrim (s : String) : String :=
  ⟨((s.data.dropWhile isWsChar).reverse.dropWhile isWsChar).reverse⟩

/-- The empty-cell count of `displayDataQuality` (lines 1554–1561): a cell is
empty when `!row[header] || row[header].trim() === ""`; since the row mapping
is total, both disjuncts collapse to the trimmed-empty test. -/
def countEmptyCells (headers : List String) (data : List Row) : ℕ :=
  (data.map fun row => (headers.filter fun header => jsTrim (row header) == "").length).sum

/-- The completeness percentage of `displayDataQuality` (lines 1563–1565):
`(totalCells - emptyCells) / totalCells * 100`.  `none` is the NaN produced
by the JS division when `totalCells` is zero. -/
def completeness (headers : List String) (data : List Row) : Option ℚ :=
  let totalCells : ℕ := headers.length * data.length
  let emptyCells : ℕ := countEmptyCells headers data
  (jsDiv ((totalCells : ℚ) - emptyCells) totalCells).map (· * 100)

/-- `calculateDataConsistency(dataset)` (lines 1974–1986):
`Math.round(consistentRows / data.length * 100)`, where a row is consistent
when every header has a non-empty trimmed value.  JS `Math.round` rounds
half toward positive infinity, which is Mathlib `round` on `ℚ`; `none` is
the NaN from dividing by a zero row count. -/
def calculateDataConsistency (ds : Dataset) : Option ℤ :=
  let consistentRows : ℕ :=
    (ds.data.filter fun row => ds.headers.all fun header => jsTrim (row header) != "").length
  (jsDiv consistentRows ds.data.length).map fun q => round (q * 100)

/-- `calculateDataUniqueness(dataset)` (lines 1989–1993):
`Math.round(uniqueRows / data.length * 100)` where `uniqueRows` counts
distinct `JSON.stringify(row)` strings; the host serialization is the
`serialize` parameter. -/
def calculateDataUniqueness (serialize : Row → String) (ds : Dataset) : Option ℤ :=
  let uniqueRows : ℕ := (ds.data.map serialize).dedup.length
  (jsDiv uniqueRows ds.data.length).map fun q => round (q * 100)

/-- The sample of `inferDataType`: the first 100 values of the list it is
given (line 1999); its only caller passes the non-empty values of a
column. -/
def sampleOf (values : List String) : List String := values.take 100

/-- The numeric count of `inferDataType` (lines 2000–2002); the host test
`!isNaN(v)` is the `isNum` parameter. -/
def numericCountOf (isNum : String → Bool) (values : List String) : ℕ :=
  ((sampleOf values).filter fun v => isNum v && jsTrim v != "").length

/-- The date count of `inferDataType` (lines 2003–2005); the host test
`!isNaN(Date.parse(v))` is the `isDate` parameter. -/
def dateCountOf (isDate : String → Bool) (values : List String) : ℕ :=
  ((sampleOf values).filter fun v => isDate v && jsTrim v != "").length

/-- `inferDataType(values)` (lines 1996–2010): over the first 100 values,
classify as `"Numeric"` when `numericCount / sample.length > 0.8`, else as
`"Date"` when `dateCount / sample.length > 0.8`, else `"Text"`; an empty
value list gives `"Unknown"`. -/
def inferDataType (isNum isDate : String → Bool) (values : List String) : String :=
  if values.length = 0 then "Unknown"
  else
    let numericCount := numericCountOf isNum values
    let dateCount := dateCountOf isDate values
    if (numericCount : ℚ) / (sampleOf values).length > 8/10 then "Numeric"
    else if (dateCount : ℚ) / (sampleOf values).length > 8/10 then "Date"
    else "Text"

/-- `calculateMedian(values)` (lines 2013–2019).  JS `values.sort((a,b)=>a-b)`
sorts the caller's array **in place**; the call is therefore modelled as
returning both the value and the post-call state of the array.  On an empty
array the JS code reads `sorted[-1]` and `sorted[0]` (both `undefined`) and
returns NaN, modelled as `none`. -/
def calculateMedian (values : List ℚ) : Option ℚ × List ℚ :=
  let sorted := values.insertionSort (· ≤ ·)
  let mid := sorted.length / 2
  if sorted.length = 0 then (none, sorted)
  else if sorted.length % 2 = 0 then
    (some ((sorted.getD (mid - 1) 0 + sorted.getD mid 0) / 2), sorted)
  else (some (sorted.getD mid 0), sorted)

/-- The `sumXY` accumulator of `calculateCorrelation` (line 2053):
`x.reduce((a, b, i) => a + b * y[i], 0)`, summed over the common indices. -/
def sumXY (x y : List ℚ) : ℚ := ((x.zip y).map fun p => p.1 * p.2).sum

/-- The `sumX2`-style accumulator of `calculateCorrelation` (lines 2054–2055). -/
def sumSq (x : List ℚ) : ℚ := (x.map fun v => v * v).sum

/-- `calculateCorrelation(x, y)` (lines 2047–2063).  The host square root
`Math.sqrt` is the `sqrt` parameter.  Mismatched lengths or empty inputs
return 0; a zero denominator returns 0. -/
def calculateCorrelation (sqrt : ℚ → ℚ) (x y : List ℚ) : ℚ :=
  if x.length ≠ y.length ∨ x.length = 0 then 0
  else
    let n : ℚ := x.length
    let numerator := n * sumXY x y - x.sum * y.sum
    let denominator :=
      sqrt ((n * sumSq x - x.sum * x.sum) * (n * sumSq y - y.sum * y.sum))
    if denominator = 0 then 0 else numerator / denominator

/-- The numeric values of one column, as extracted inside
`calculateCorrelationMatrix` (lines 2027–2029 and 2035–2037):
`data.map(row => parseFloat(row[col])).filter(v => !isNaN(v))`; the host
`parseFloat` is the `pf` parameter, with `none` for NaN. -/
def parseFloatColumn (pf : String → Option ℚ) (data : List Row) (col : String) : List ℚ :=
  (data.map fun row => pf (row col)).reduceOption

/-- `calculateCorrelationMatrix(columns, data)` (lines 2022–2044): entry
(i, j) is 1.0 when `i === j` and otherwise the correlation of the parsed
values of columns i and j. -/
def calculateCorrelationMatrix (sqrt : ℚ → ℚ) (pf : String → Option ℚ)
    (columns : List String) (data : List Row) : List (List ℚ) :=
  columns.enum.map fun p =>
    let values1 := parseFloatColumn pf data p.2
    columns.enum.map fun q =>
      if p.1 = q.1 then 1
      else calculateCorrelation sqrt values1 (parseFloatColumn pf data q.2)

/-! ## Transaction history persistence -/

/-- The transaction record built by `saveToEnhancedTransactionHistory`
(lines 741–755) from the form data and a mock result.  `Date.now()` and
`new Date().toISOString()` are the `id` / `timestamp` host values; the JS
falsy fallback `result.risk_score || result.confidence` is modelled by the
zero test (the mock risk score is a number, never undefined). -/
structure EnhancedTransactionRecord where
  id : ℤ
  timestamp : String
  customer_id : String
  transaction_amount : ℚ
  account_age_days : ℤ
  channel : String
  kyc_verified : Bool
  is_fraud : Bool
  risk_score : ℚ
  confidence : ℚ
  status : String
  llm_explanation : String
  rules_triggered : List String
deriving DecidableEq, Repr

/-- Record construction of `saveToEnhancedTransactionHistory`
(lines 741–755). -/
def mkEnhancedTransactionRecord (now : ℤ) (iso : String) (formData : FormData)
    (result : MockPrediction) : EnhancedTransactionRecord :=
  let fraudFlag := result.is_fraud || (result.prediction == 1) || result.fraud
  { id := now
    timestamp := iso
    customer_id := formData.customer_id
    transaction_amount := formData.transaction_amount
    account_age_days := formData.account_age_days
    channel := formData.channel
    kyc_verified := formData.kyc_verified
    is_fraud := fraudFlag
    risk_score := if result.risk_score = 0 then result.confidence else result.risk_score
    confidence := result.confidence
    status := if fraudFlag then "Fraud" else "Legitimate"
    llm_explanation := result.llm_explanation
    rules_triggered := result.rules_triggered }

/-- `saveToEnhancedTransactionHistory(formData, result)` (lines 738–764) as a
transformation of the stored `transactionHistory` list: it `unshift`s the new
record and writes the list back **without any truncation**. -/
def saveToEnhancedTransactionHistory (now : ℤ) (iso : String) (formData : FormData)
    (result : MockPrediction) (history : List EnhancedTransactionRecord) :
    List EnhancedTransactionRecord :=
  mkEnhancedTransactionRecord now iso formData result :: history

/-- `saveToTransactionHistory(formData, result)` (lines 1048–1084) as a
transformation of the stored `transactionHistory` list: `unshift` the new
record, then `history = history.slice(0, 100)` whenever the length exceeds
100.  The record built at lines 1051–1065 only packages form/result/host
fields, so it is passed in as `rec`; the history dynamics do not depend on
its contents. -/
def saveToTransactionHistory {α : Type} (rec : α) (history : List α) : List α :=
  let h := rec :: history
  if h.length > 100 then h.take 100 else h

/-- C1: for every transaction input and every realization of the random
source, the `riskScore` returned by the mock fraud scorer lies in the
interval [0.05, 0.95] inclusive. -/
theorem mockPrediction_riskScore_in_band (formData : FormData) (rnd : RandomSource) :
    5/100 ≤ (generateEnhancedMockPrediction formData rnd).risk_score ∧
      (generateEnhancedMockPrediction formData rnd).risk_score ≤ 95/100 :=
  clamp_mem _

/-- C2: when all four trigger conditions hold (amount > 10000, account age
< 30 days, KYC not verified, mobile channel with amount > 5000 — implied by
amount > 10000), the scorer returns exactly the four rule strings, in source
order. -/
theorem mockPrediction_all_rules_triggered (formData : FormData) (rnd : RandomSource)
    (h1 : formData.transaction_amount > 10000)
    (h2 : formData.account_age_days < 30)
    (h3 : formData.kyc_verified = false)
    (h4 : formData.channel = "mobile") :
    (generateEnhancedMockPrediction formData rnd).rules_triggered =
      ["Amount exceeds threshold", "New account with limited history",
        "KYC verification pending", "High mobile transaction"] ∧
      (generateEnhancedMockPrediction formData rnd).rules_triggered.length = 4 := by
  have h5 : formData.transaction_amount > 5000 := lt_trans (by norm_num) h1
  refine ⟨?_, ?_⟩ <;>
    simp [generateEnhancedMockPrediction, h1, h2, h3, h4, h5]

/-- Witness for C2 at a concrete input. -/
theorem mockPrediction_all_rules_triggered_witness :
    (generateEnhancedMockPrediction ⟨"C001", 20000, 5, false, "mobile"⟩
        ⟨0, 0, 0, 0, 0, 0⟩).rules_triggered =
      ["Amount exceeds threshold", "New account with limited history",
        "KYC verification pending", "High mobile transaction"] ∧
      (generateEnhancedMockPrediction ⟨"C001", 20000, 5, false, "mobile"⟩
        ⟨0, 0, 0, 0, 0, 0⟩).rules_triggered.length = 4 :=
  mockPrediction_all_rules_triggered _ _ (by norm_num) (by norm_num) rfl rfl

/-- C3: for a fixed realization of the random source, the riskScore on an
input satisfying all four trigger conditions dominates the riskScore on an
input satisfying none of them. -/
theorem mockPrediction_riskScore_monotone (fdAll fdNone : FormData) (rnd : RandomSource)
    (a1 : fdAll.transaction_amount > 10000)
    (a2 : fdAll.account_age_days < 30)
    (a3 : fdAll.kyc_verified = false)
    (a4 : fdAll.channel = "mobile")
    (b1 : ¬ fdNone.transaction_amount > 10000)
    (b2 : ¬ fdNone.account_age_days < 30)
    (b3 : fdNone.kyc_verified = true)
    (b4 : ¬ (fdNone.channel = "mobile" ∧ fdNone.transaction_amount > 5000)) :
    (generateEnhancedMockPrediction fdNone rnd).risk_score ≤
      (generateEnhancedMockPrediction fdAll rnd).risk_score := by
  have a5 : fdAll.transaction_amount > 5000 := lt_trans (by norm_num) a1
  have e1 : (generateEnhancedMockPrediction fdAll rnd).risk_score =
      min (95/100 : ℚ) (max (5/100)
        (rnd.baseline * (3/10) + 7/10 + 2/10 + 15/100 + 1/10 + 1/10)) := by
    simp [generateEnhancedMockPrediction, a1, a2, a3, a4, a5]
  have e2 : (generateEnhancedMockPrediction fdNone rnd).risk_score =
      min (95/100 : ℚ) (max (5/100) (rnd.baseline * (3/10) + 7/10)) := by
    simp [generateEnhancedMockPrediction, b1, b2, b3, b4]
  rw [e1, e2]
  exact clamp_mono (by linarith)

/-- Witness for C3 at concrete inputs. -/
theorem mockPrediction_riskScore_monotone_witness :
    (generateEnhancedMockPrediction ⟨"C003", 100, 400, true, "atm"⟩
        ⟨1/2, 0, 0, 0, 0, 0⟩).risk_score ≤
      (generateEnhancedMockPrediction ⟨"C002", 20000, 5, false, "mobile"⟩
        ⟨1/2, 0, 0, 0, 0, 0⟩).risk_score :=
  mockPrediction_riskScore_monotone _ _ _ (by norm_num) (by norm_num) rfl rfl
    (by norm_num) (by norm_num) rfl (by norm_num)

/-- C7: on a zero or negative amount the scorer still returns a complete,
internally consistent verdict (risk score clamped into [0.05, 0.95],
confidence equal to the risk score, all three fraud fields coherent) — its
evaluation is total. -/
theorem mockPrediction_total_on_nonpositive_amount (formData : FormData)
    (rnd : RandomSource) (h : formData.transaction_amount ≤ 0) :
    5/100 ≤ (generateEnhancedMockPrediction formData rnd).risk_score ∧
      (generateEnhancedMockPrediction formData rnd).risk_score ≤ 95/100 ∧
      (generateEnhancedMockPrediction formData rnd).confidence =
        (generateEnhancedMockPrediction formData rnd).risk_score ∧
      (generateEnhancedMockPrediction formData rnd).fraud =
        (generateEnhancedMockPrediction formData rnd).is_fraud ∧
      (generateEnhancedMockPrediction formData rnd).prediction =
        (if (generateEnhancedMockPrediction formData rnd).is_fraud then 1 else 0) :=
  ⟨(clamp_mem _).1, (clamp_mem _).2, rfl, rfl, rfl⟩

/-- Witness for C7 at a concrete zero-amount input. -/
theorem mockPrediction_total_on_nonpositive_amount_witness :
    5/100 ≤ (generateEnhancedMockPrediction ⟨"C004", 0, 10, false, "atm"⟩
        ⟨0, 0, 0, 0, 0, 0⟩).risk_score ∧
      (generateEnhancedMockPrediction ⟨"C004", 0, 10, false, "atm"⟩
        ⟨0, 0, 0, 0, 0, 0⟩).risk_score ≤ 95/100 ∧
      (generateEnhancedMockPrediction ⟨"C004", 0, 10, false, "atm"⟩
        ⟨0, 0, 0, 0, 0, 0⟩).confidence =
        (generateEnhancedMockPrediction ⟨"C004", 0, 10, false, "atm"⟩
          ⟨0, 0, 0, 0, 0, 0⟩).risk_score ∧
      (generateEnhancedMockPrediction ⟨"C004", 0, 10, false, "atm"⟩
        ⟨0, 0, 0, 0, 0, 0⟩).fraud =
        (generateEnhancedMockPrediction ⟨"C004", 0, 10, false, "atm"⟩
          ⟨0, 0, 0, 0, 0, 0⟩).is_fraud ∧
      (generateEnhancedMockPrediction ⟨"C004", 0, 10, false, "atm"⟩
        ⟨0, 0, 0, 0, 0, 0⟩).prediction =
        (if (generateEnhancedMockPrediction ⟨"C004", 0, 10, false, "atm"⟩
          ⟨0, 0, 0, 0, 0, 0⟩).is_fraud then 1 else 0) :=
  mockPrediction_total_on_nonpositive_amount _ _ (by norm_num)

/-- C10: an input that satisfies none of the four trigger conditions gets a
non-fraud verdict with an empty rule list, for every realization of the
random source. -/
theorem mockPrediction_no_trigger_clean (formData : FormData) (rnd : RandomSource)
    (h1 : ¬ formData.transaction_amount > 10000)
    (h2 : ¬ formData.account_age_days < 30)
    (h3 : formData.kyc_verified = true)
    (h4 : ¬ (formData.channel = "mobile" ∧ formData.transaction_amount > 5000)) :
    (generateEnhancedMockPrediction formData rnd).is_fraud = false ∧
      (generateEnhancedMockPrediction formData rnd).rules_triggered = [] := by
  refine ⟨?_, ?_⟩ <;>
    simp [generateEnhancedMockPrediction, h1, h2, h3, h4]

/-- Witness for C10 at a concrete input. -/
theorem mockPrediction_no_trigger_clean_witness :
    (generateEnhancedMockPrediction ⟨"C005", 100, 400, true, "atm"⟩
        ⟨1, 1, 1, 1, 1, 1⟩).is_fraud = false ∧
      (generateEnhancedMockPrediction ⟨"C005", 100, 400, true, "atm"⟩
        ⟨1, 1, 1, 1, 1, 1⟩).rules_triggered = [] :=
  mockPrediction_no_trigger_clean _ _ (by norm_num) (by norm_num) rfl (by norm_num)

/-- `sumXY` is symmetric: the JS accumulator `Σ x[i] * y[i]` over the common
indices equals `Σ y[i] * x[i]`. -/
theorem sumXY_comm (x y : List ℚ) : sumXY x y = sumXY y x := by
  induction x generalizing y with
  | nil => cases y <;> simp [sumXY]
  | cons a xs ih =>
    cases y with
    | nil => simp [sumXY]
    | cons b ys =>
      have hxy := ih ys
      simp only [sumXY, List.zip_cons_cons, List.map_cons, List.sum_cons] at hxy ⊢
      rw [mul_comm a b, hxy]

/-- `calculateCorrelation` is symmetric in its two columns, for any host
square-root function. -/
theorem calculateCorrelation_comm (sqrt : ℚ → ℚ) (x y : List ℚ) :
    calculateCorrelation sqrt x y = calculateCorrelation sqrt y x := by
  by_cases hlen : x.length = y.length
  · by_cases hzero : x.length = 0
    · have hy : y.length = 0 := hlen ▸ hzero
      simp [calculateCorrelation, hzero, hy]
    · have hy : y.length ≠ 0 := fun hh => hzero (hlen.trans hh)
      have hcast : (x.length : ℚ) = (y.length : ℚ) := by exact_mod_cast hlen
      have unfoldL : calculateCorrelation sqrt x y =
          if sqrt (((x.length : ℚ) * sumSq x - x.sum * x.sum) *
              ((x.length : ℚ) * sumSq y - y.sum * y.sum)) = 0 then 0
          else ((x.length : ℚ) * sumXY x y - x.sum * y.sum) /
            sqrt (((x.length : ℚ) * sumSq x - x.sum * x.sum) *
              ((x.length : ℚ) * sumSq y - y.sum * y.sum)) := by
        simp only [calculateCorrelation]
        rw [if_neg (by push_neg; exact ⟨hlen, hzero⟩)]
      have unfoldR : calculateCorrelation sqrt y x =
          if sqrt (((y.length : ℚ) * sumSq y - y.sum * y.sum) *
              ((y.length : ℚ) * sumSq x - x.sum * x.sum)) = 0 then 0
          else ((y.length : ℚ) * sumXY y x - y.sum * x.sum) /
            sqrt (((y.length : ℚ) * sumSq y - y.sum * y.sum) *
              ((y.length : ℚ) * sumSq x - x.sum * x.sum)) := by
        simp only [calculateCorrelation]
        rw [if_neg (by push_neg; exact ⟨hlen.symm, hy⟩)]
      have hN : (x.length : ℚ) * sumXY x y - x.sum * y.sum =
          (y.length : ℚ) * sumXY y x - y.sum * x.sum := by
        rw [hcast, sumXY_comm]; ring
      have hD : ((x.length : ℚ) * sumSq x - x.sum * x.sum) *
            ((x.length : ℚ) * sumSq y - y.sum * y.sum) =
          ((y.length : ℚ) * sumSq y - y.sum * y.sum) *
            ((y.length : ℚ) * sumSq x - x.sum * x.sum) := by
        rw [hcast]; ring
      rw [unfoldL, unfoldR, hN, hD]
  · have hyx : y.length ≠ x.length := fun hh => hlen hh.symm
    simp [calculateCorrelation, hlen, hyx]

/-- Entry (a, b) of the correlation matrix, for indices in range. -/
theorem correlationMatrix_entry (sqrt : ℚ → ℚ) (pf : String → Option ℚ)
    (columns : List String) (data : List Row) (a b : ℕ)
    (ha : a < columns.length) (hb : b < columns.length) :
    ((calculateCorrelationMatrix sqrt pf columns data).getD a []).getD b 0 =
      if a = b then 1
      else calculateCorrelation sqrt (parseFloatColumn pf data (columns.getD a ""))
        (parseFloatColumn pf data (columns.getD b "")) := by
  have hma : a < (calculateCorrelationMatrix sqrt pf columns data).length := by
    simpa [calculateCorrelationMatrix] using ha
  rw [List.getD_eq_getElem _ _ hma]
  simp only [calculateCorrelationMatrix, List.getElem_map,
    List.getElem_enum]
  have hrow : b < (columns.enum.map fun q =>
      if a = q.1 then (1 : ℚ)
      else calculateCorrelation sqrt (parseFloatColumn pf data columns[a])
        (parseFloatColumn pf data q.2)).length := by
    simpa using hb
  rw [List.getD_eq_getElem _ _ hrow]
  simp only [List.getElem_map, List.getElem_enum]
  rw [List.getD_eq_getElem _ _ ha, List.getD_eq_getElem _ _ hb]

/-- C4: the correlation matrix over the numeric columns is symmetric and its
diagonal entries are 1.0, for every dataset, every pair of in-range column
indices, and any host `Math.sqrt` / `parseFloat`. -/
theorem correlationMatrix_symm_diag (sqrt : ℚ → ℚ) (pf : String → Option ℚ)
    (columns : List String) (data : List Row) (i j : ℕ)
    (hi : i < columns.length) (hj : j < columns.length) :
    ((calculateCorrelationMatrix sqrt pf columns data).getD i []).getD j 0 =
      ((calculateCorrelationMatrix sqrt pf columns data).getD j []).getD i 0 ∧
      ((calculateCorrelationMatrix sqrt pf columns data).getD i []).getD i 0 = 1 := by
  constructor
  · rw [correlationMatrix_entry sqrt pf columns data i j hi hj,
      correlationMatrix_entry sqrt pf columns data j i hj hi]
    by_cases hij : i = j
    · simp [hij]
    · rw [if_neg hij, if_neg (fun hh => hij hh.symm), calculateCorrelation_comm]
  · rw [correlationMatrix_entry sqrt pf columns data i i hi hi]
    simp

/-- Witness for C4 on a concrete two-column dataset. -/
theorem correlationMatrix_symm_diag_witness :
    ((calculateCorrelationMatrix (fun v => v) (fun s => if s = "1" then some 1 else none)
          ["a", "b"] [fun _ => "1", fun _ => "2"]).getD 0 []).getD 1 0 =
      ((calculateCorrelationMatrix (fun v => v) (fun s => if s = "1" then some 1 else none)
          ["a", "b"] [fun _ => "1", fun _ => "2"]).getD 1 []).getD 0 0 ∧
      ((calculateCorrelationMatrix (fun v => v) (fun s => if s = "1" then some 1 else none)
          ["a", "b"] [fun _ => "1", fun _ => "2"]).getD 0 []).getD 0 0 = 1 :=
  correlationMatrix_symm_diag _ _ _ _ 0 1 (by norm_num) (by norm_num)

/-- C5 counterexample: on a dataset with one header and zero rows, all three
data-quality metrics are the JS NaN (`none`), not 0 — the divisions
`0 / 0` in `displayDataQuality`, `calculateDataConsistency` and
`calculateDataUniqueness` do not produce 0. -/
theorem emptyDataset_metrics_nan :
    completeness ["a"] [] = none ∧
      calculateDataConsistency ⟨["a"], []⟩ = none ∧
      calculateDataUniqueness (fun _ => "") ⟨["a"], []⟩ = none ∧
      completeness ["a"] [] ≠ some 0 := by
  refine ⟨?_, ?_, ?_, ?_⟩ <;>
    simp [completeness, calculateDataConsistency, calculateDataUniqueness,
      jsDiv, countEmptyCells]

/-- C5 amended: for every dataset with zero rows the completeness,
consistency and uniqueness metrics all evaluate to NaN (`none`) — the
computation is total, no error is raised, but the value is NaN rather
than 0. -/
theorem emptyDataset_metrics_none (headers : List String) (serialize : Row → String) :
    completeness headers [] = none ∧
      calculateDataConsistency ⟨headers, []⟩ = none ∧
      calculateDataUniqueness serialize ⟨headers, []⟩ = none := by
  refine ⟨?_, ?_, ?_⟩ <;>
    simp [completeness, calculateDataConsistency, calculateDataUniqueness,
      jsDiv, countEmptyCells]

/-- The strict ratio test of `inferDataType`: `count / len > 0.8` over ℚ is
the integer test `10 * count > 8 * len`, for a non-empty sample. -/
theorem ratio_gt_iff (c len : ℕ) (h : 0 < len) :
    ((c : ℚ) / len > 8/10) ↔ 10 * c > 8 * len := by
  rw [gt_iff_lt, div_lt_div_iff₀ (by norm_num) (by exact_mod_cast h)]
  constructor
  · intro hh
    have : (8 : ℚ) * len < 10 * c := by linarith
    exact_mod_cast this
  · intro hh
    have : (8 : ℚ) * len < 10 * c := by exact_mod_cast hh
    linarith

/-- C6 counterexample: a column whose sampled values are exactly 80% numeric
(four numeric strings out of five) is *not* classified Numeric — the source
uses a strict `> 0.8` test, so it falls through to `"Text"`.  The `isNum` /
`isDate` instantiations agree with the JS `!isNaN` and date-parse behavior on
the five strings used: `"1"`…`"4"` are numeric and `"x"` is neither numeric
nor a parseable date. -/
theorem inferDataType_at_eighty_percent :
    inferDataType (fun s => s != "x") (fun s => s != "x")
        ["1", "2", "3", "4", "x"] = "Text" ∧
      inferDataType (fun s => s != "x") (fun s => s != "x")
        ["1", "2", "3", "4", "x"] ≠ "Numeric" := by
  have hnc : numericCountOf (fun s => s != "x") ["1", "2", "3", "4", "x"] = 4 := by
    decide
  have hdc : dateCountOf (fun s => s != "x") ["1", "2", "3", "4", "x"] = 4 := by
    decide
  have hsl : (sampleOf ["1", "2", "3", "4", "x"]).length = 5 := by decide
  have hpos : 0 < (sampleOf ["1", "2", "3", "4", "x"]).length := by
    rw [hsl]; norm_num
  have hmain : inferDataType (fun s => s != "x") (fun s => s != "x")
      ["1", "2", "3", "4", "x"] = "Text" := by
    simp only [inferDataType]
    rw [if_neg (by decide),
      if_neg (fun hh => by
        have hgt := (ratio_gt_iff _ _ hpos).mp hh
        rw [hnc, hsl] at hgt
        omega),
      if_neg (fun hh => by
        have hgt := (ratio_gt_iff _ _ hpos).mp hh
        rw [hdc, hsl] at hgt
        omega)]
  exact ⟨hmain, by rw [hmain]; decide⟩

/-- C6 amended: type inference examines at most the first 100 values of the
column sample it is given and classifies it Numeric when *strictly more*
than 80% of the sampled values pass the numeric test, else Date when
strictly more than 80% pass the date test, else Text. -/
theorem inferDataType_strict_thresholds (isNum isDate : String → Bool)
    (values : List String) (h : values ≠ []) :
    inferDataType isNum isDate values = inferDataType isNum isDate (sampleOf values) ∧
      (inferDataType isNum isDate values = "Numeric" ↔
        10 * numericCountOf isNum values > 8 * (sampleOf values).length) ∧
      (inferDataType isNum isDate values = "Date" ↔
        ¬ 10 * numericCountOf isNum values > 8 * (sampleOf values).length ∧
          10 * dateCountOf isDate values > 8 * (sampleOf values).length) ∧
      (inferDataType isNum isDate values = "Text" ↔
        ¬ 10 * numericCountOf isNum values > 8 * (sampleOf values).length ∧
          ¬ 10 * dateCountOf isDate values > 8 * (sampleOf values).length) := by
  have h0 : values.length ≠ 0 := fun hh => h (List.length_eq_zero.mp hh)
  have hs : (sampleOf values).length = min 100 values.length := by
    simp [sampleOf]
  have hspos : 0 < (sampleOf values).length := by
    rw [hs]; omega
  have hs0 : (sampleOf values).length ≠ 0 := hspos.ne'
  have hsample : sampleOf (sampleOf values) = sampleOf values := by
    simp [sampleOf, List.take_take]
  have hnum : numericCountOf isNum (sampleOf values) = numericCountOf isNum values := by
    simp [numericCountOf, hsample]
  have hdate : dateCountOf isDate (sampleOf values) = dateCountOf isDate values := by
    simp [dateCountOf, hsample]
  refine ⟨?_, ?_, ?_, ?_⟩
  · simp only [inferDataType, hsample, hnum, hdate, if_neg h0, if_neg hs0]
  · simp only [inferDataType, if_neg h0]
    by_cases hN : 10 * numericCountOf isNum values > 8 * (sampleOf values).length
    · rw [if_pos ((ratio_gt_iff _ _ hspos).mpr hN)]
      exact iff_of_true rfl hN
    · rw [if_neg (fun hh => hN ((ratio_gt_iff _ _ hspos).mp hh))]
      by_cases hD : 10 * dateCountOf isDate values > 8 * (sampleOf values).length
      · rw [if_pos ((ratio_gt_iff _ _ hspos).mpr hD)]
        exact iff_of_false (by decide) hN
      · rw [if_neg (fun hh => hD ((ratio_gt_iff _ _ hspos).mp hh))]
        exact iff_of_false (by decide) hN
  · simp only [inferDataType, if_neg h0]
    by_cases hN : 10 * numericCountOf isNum values > 8 * (sampleOf values).length
    · rw [if_pos ((ratio_gt_iff _ _ hspos).mpr hN)]
      exact iff_of_false (by decide) (fun hh => hh.1 hN)
    · rw [if_neg (fun hh => hN ((ratio_gt_iff _ _ hspos).mp hh))]
      by_cases hD : 10 * dateCountOf isDate values > 8 * (sampleOf values).length
      · rw [if_pos ((ratio_gt_iff _ _ hspos).mpr hD)]
        exact iff_of_true rfl ⟨hN, hD⟩
      · rw [if_neg (fun hh => hD ((ratio_gt_iff _ _ hspos).mp hh))]
        exact iff_of_false (by decide) (fun hh => hD hh.2)
  · simp only [inferDataType, if_neg h0]
    by_cases hN : 10 * numericCountOf isNum values > 8 * (sampleOf values).length
    · rw [if_pos ((ratio_gt_iff _ _ hspos).mpr hN)]
      exact iff_of_false (by decide) (fun hh => hh.1 hN)
    · rw [if_neg (fun hh => hN ((ratio_gt_iff _ _ hspos).mp hh))]
      by_cases hD : 10 * dateCountOf isDate values > 8 * (sampleOf values).length
      · rw [if_pos ((ratio_gt_iff _ _ hspos).mpr hD)]
        exact iff_of_false (by decide) (fun hh => hh.2 hD)
      · rw [if_neg (fun hh => hD ((ratio_gt_iff _ _ hspos).mp hh))]
        exact iff_of_true rfl ⟨hN, hD⟩

/-- Witness for C6 amended at a concrete one-value column. -/
theorem inferDataType_strict_thresholds_witness :
    inferDataType (fun _ => true) (fun _ => false) ["7"] =
        inferDataType (fun _ => true) (fun _ => false) (sampleOf ["7"]) ∧
      (inferDataType (fun _ => true) (fun _ => false) ["7"] = "Numeric" ↔
        10 * numericCountOf (fun _ => true) ["7"] > 8 * (sampleOf ["7"]).length) ∧
      (inferDataType (fun _ => true) (fun _ => false) ["7"] = "Date" ↔
        ¬ 10 * numericCountOf (fun _ => true) ["7"] > 8 * (sampleOf ["7"]).length ∧
          10 * dateCountOf (fun _ => false) ["7"] > 8 * (sampleOf ["7"]).length) ∧
      (inferDataType (fun _ => true) (fun _ => false) ["7"] = "Text" ↔
        ¬ 10 * numericCountOf (fun _ => true) ["7"] > 8 * (sampleOf ["7"]).length ∧
          ¬ 10 * dateCountOf (fun _ => false) ["7"] > 8 * (sampleOf ["7"]).length) :=
  inferDataType_strict_thresholds _ _ _ (by decide)

/-- C9 counterexample: `calculateMedian` does not leave the caller's array
unchanged — JS `Array.prototype.sort` sorts in place, so after
`calculateMedian([3, 1, 2])` the caller's array is `[1, 2, 3]`, while the
returned value is the correct median 2. -/
theorem calculateMedian_mutates :
    (calculateMedian [3, 1, 2]).2 = [1, 2, 3] ∧
      (calculateMedian [3, 1, 2]).2 ≠ [3, 1, 2] ∧
      (calculateMedian [3, 1, 2]).1 = some 2 := by
  refine ⟨?_, ?_, ?_⟩ <;> decide

/-- C9 amended: on a non-empty sequence `calculateMedian` returns the median
of the input — the middle element of the ascending sort for odd length, the
mean of the two middle elements for even length — but the caller's array is
left in sorted order (a sorted permutation of the input), not unchanged. -/
theorem calculateMedian_correct (values : List ℚ) (h : values ≠ []) :
    List.Perm (calculateMedian values).2 values ∧
      List.Sorted (· ≤ ·) (calculateMedian values).2 ∧
      (calculateMedian values).1 =
        some (if values.length % 2 = 0 then
            ((calculateMedian values).2.getD (values.length / 2 - 1) 0 +
              (calculateMedian values).2.getD (values.length / 2) 0) / 2
          else (calculateMedian values).2.getD (values.length / 2) 0) := by
  have hs2 : (calculateMedian values).2 = values.insertionSort (· ≤ ·) := by
    simp only [calculateMedian]
    split_ifs <;> rfl
  have hperm : List.Perm (values.insertionSort (· ≤ ·)) values :=
    List.perm_insertionSort _ _
  have hlen : (values.insertionSort (· ≤ ·)).length = values.length :=
    hperm.length_eq
  have hpos : values.length ≠ 0 := fun hh => h (List.length_eq_zero.mp hh)
  refine ⟨hs2 ▸ hperm, hs2 ▸ List.sorted_insertionSort _ _, ?_⟩
  rw [hs2, ← hlen]
  simp only [calculateMedian]
  split_ifs with h0 he
  · exact absurd (hlen ▸ h0) hpos
  · rfl
  · rfl

/-- Witness for C9 amended at a concrete three-element input. -/
theorem calculateMedian_correct_witness :
    List.Perm (calculateMedian [3, 1, 2]).2 [3, 1, 2] ∧
      List.Sorted (· ≤ ·) (calculateMedian [3, 1, 2]).2 ∧
      (calculateMedian [3, 1, 2]).1 =
        some (if ([3, 1, 2] : List ℚ).length % 2 = 0 then
            ((calculateMedian [3, 1, 2]).2.getD (([3, 1, 2] : List ℚ).length / 2 - 1) 0 +
              (calculateMedian [3, 1, 2]).2.getD (([3, 1, 2] : List ℚ).length / 2) 0) / 2
          else (calculateMedian [3, 1, 2]).2.getD (([3, 1, 2] : List ℚ).length / 2) 0) :=
  calculateMedian_correct [3, 1, 2] (by decide)

/-- C8 counterexample: saving through `saveToEnhancedTransactionHistory`
when the stored history already holds 100 entries leaves 101 entries — this
write path performs no truncation, so the 100-entry bound is not an
invariant of every operation that writes the history. -/
theorem enhancedSave_exceeds_bound :
    (saveToEnhancedTransactionHistory 0 "t" ⟨"C006", 1, 1, true, "atm"⟩
        ⟨false, 0, false, 1/2, 1/2, [], ""⟩
        (List.replicate 100
          (mkEnhancedTransactionRecord 0 "t" ⟨"C006", 1, 1, true, "atm"⟩
            ⟨false, 0, false, 1/2, 1/2, [], ""⟩))).length = 101 ∧
      ¬ (saveToEnhancedTransactionHistory 0 "t" ⟨"C006", 1, 1, true, "atm"⟩
        ⟨false, 0, false, 1/2, 1/2, [], ""⟩
        (List.replicate 100
          (mkEnhancedTransactionRecord 0 "t" ⟨"C006", 1, 1, true, "atm"⟩
            ⟨false, 0, false, 1/2, 1/2, [], ""⟩))).length ≤ 100 := by
  refine ⟨?_, ?_⟩ <;>
    simp [saveToEnhancedTransactionHistory]

/-- C8 amended: the `saveToTransactionHistory` writer (lines 1048–1084) does
maintain the bound — its result is the new record prepended to the old
history, truncated to the most recent 100 entries, so it has at most 100
entries and the new record first. -/
theorem saveToTransactionHistory_bounded {α : Type} (rec : α) (history : List α) :
    saveToTransactionHistory rec history = (rec :: history).take 100 ∧
      (saveToTransactionHistory rec history).length ≤ 100 ∧
      (saveToTransactionHistory rec history).head? = some rec := by
  have heq : saveToTransactionHistory rec history = (rec :: history).take 100 := by
    simp only [saveToTransactionHistory]
    by_cases hc : (rec :: history).length > 100
    · rw [if_pos hc]
    · rw [if_neg hc]
      exact (List.take_of_length_le (by omega)).symm
  refine ⟨heq, ?_, ?_⟩
  · rw [heq, List.length_take]
    exact min_le_left _ _
  · rw [heq, show (100 : ℕ) = 99 + 1 from rfl, List.take_succ_cons]
    rfl

end TransactionTest
